import Mathlib

/-!
Shallow embedding of the MIPT_HW_Books_Scraper crawl/extraction pipeline
(`src/scraper.py`).

The embedding models the two scraper functions:

* `get_book_data(book_url)` — fetches one detail page and extracts a
  six-field record (`title`, `price`, `rating`, `availability`,
  `description`, `product_info`).  The network fetch
  (`requests.get` + `raise_for_status`) can raise; the extraction phase
  (lines 38-81) is total, every lookup guarded.  We model a fetched
  detail document as a `DetailDoc` record of the optional pieces of
  markup the extractor looks up, and the extraction phase as the total
  function `extract_book`.

* `scrape_books(is_save, max_pages)` — the crawl loop over catalog
  pages.  `is_save` only controls a file write after the loop, so it is
  not modelled.  The loop is modelled fuel-indexed (`crawlLoop`): the
  Python `while True` has no a-priori bound, so a run that exhausts the
  fuel yields `none` (the loop did not exit within `fuel` iterations);
  `some` is a terminated run.  The network is modelled as a `Source`
  giving the response for each listing page number and each detail URL.

The observable return value of `scrape_books` is only `books_list`; the
various `print` calls go to stdout.  We keep the per-item error prints
(`Error scraping {book_url}`) and the fatal listing-page print as ghost
fields `item_errors` and `fatal` of the `CrawlTrace`, and expose the
caller-visible value separately as `scrape_books` (the `books` field).

Python truthiness is modelled where it matters:
`if max_pages and page_num > max_pages` is false when `max_pages` is
`None` or `0`; `if a_tag and a_tag.get("href")` is false when the
`href` attribute is missing or the empty string.
-/

namespace Scraper

/-- Python `str.strip()`: drop leading and trailing whitespace.
Implemented over the character list so that closed terms reduce. -/
def strip (s : String) : String :=
  String.mk (((s.data.dropWhile Char.isWhitespace).reverse.dropWhile Char.isWhitespace).reverse)

/-- One `<tr>` row of the product-information table, as the extractor
sees it: the text of its first `<th>` (if any) and of its first `<td>`
(if any). -/
structure Row where
  th : Option String
  td : Option String
  deriving Repr, DecidableEq

/-- One fetched detail document, reduced to the pieces of markup
`get_book_data` looks up (each `find` result is an `Option`):
the text of the first `<h1>`; the text of `p.price_color`; the class
token list of `p.star-rating` (the value of `rating_tag.get("class", [])`);
the text of `p.instock.availability`; for `div#product_description`,
`none` when the div is absent, `some none` when it has no following
`<p>` sibling, `some (some t)` for the text of that sibling; and the
rows of `table.table-striped`. -/
structure DetailDoc where
  h1 : Option String
  price_color : Option String
  star_rating : Option (List String)
  instock_availability : Option String
  product_description_sibling : Option (Option String)
  table_rows : Option (List Row)
  deriving Repr, DecidableEq

/-- The record `get_book_data` builds (the `book_data` dict has exactly
these six keys, assigned in this order). -/
structure Book where
  title : Option String
  price : Option String
  rating : Option String
  availability : Option String
  description : Option String
  product_info : List (String × String)
  deriving Repr, DecidableEq

/-- Python dict assignment `product_info[key] = value`: overwrite the
value in place when the key is already present, append otherwise. -/
def dict_insert (m : List (String × String)) (k v : String) : List (String × String) :=
  if m.any (fun p => p.1 == k) then
    m.map (fun p => if p.1 == k then (k, v) else p)
  else
    m ++ [(k, v)]

/-- One iteration of the `product_info` scan (scraper.py lines 71-77):
if both `row.find("th")` and `row.find("td")` succeed, insert the
stripped texts as a key/value pair; otherwise skip the row. -/
def product_info_step (acc : List (String × String)) (r : Row) : List (String × String) :=
  match r.th, r.td with
  | some h, some d => dict_insert acc (strip h) (strip d)
  | _, _ => acc

/-- The `product_info` scan over all rows of the characteristics
table (scraper.py lines 67-77). -/
def product_info_of_rows (rows : List Row) : List (String × String) :=
  rows.foldl product_info_step []

/-- The extraction phase of `get_book_data` (scraper.py lines 38-81),
field by field exactly as the source guards each lookup.  Total: no
branch can fail. -/
def extract_book (d : DetailDoc) : Book where
  title := d.h1.map strip
  price := d.price_color.map strip
  rating :=
    match d.star_rating with
    | some cls => cls[1]?
    | none => none
  availability := d.instock_availability.map strip
  description :=
    match d.product_description_sibling with
    | some (some t) => some (strip t)
    | some none => none
    | none => none
  product_info :=
    match d.table_rows with
    | some rows => product_info_of_rows rows
    | none => []

/-- Value stored under one key of the `book_data` dict: extracted text,
Python `None`, or the nested `product_info` dict. -/
inductive FieldVal
  | text (s : String)
  | null
  | dict (m : List (String × String))
  deriving Repr, DecidableEq

/-- An `Option String` field as it sits in the returned dict. -/
def optVal : Option String → FieldVal
  | some s => FieldVal.text s
  | none => FieldVal.null

/-- True for `text` and `null`, false for the nested dict. -/
def FieldVal.isTextOrNull : FieldVal → Bool
  | FieldVal.dict _ => false
  | _ => true

/-- The `book_data` dict as `get_book_data` returns it: six keys, in
assignment order. -/
def book_dict (b : Book) : List (String × FieldVal) :=
  [("title", optVal b.title),
   ("price", optVal b.price),
   ("rating", optVal b.rating),
   ("availability", optVal b.availability),
   ("description", optVal b.description),
   ("product_info", FieldVal.dict b.product_info)]

/-- The `href` attribute of an `<a>` tag (`a_tag.get("href")`). -/
structure Anchor where
  href : Option String
  deriving Repr, DecidableEq

/-- An `<h3>` inside a product article; `a` is `h3_tag.find("a")`. -/
structure H3Tag where
  a : Option Anchor
  deriving Repr, DecidableEq

/-- One `article.product_pod` item container; `h3` is
`article.find("h3")`. -/
structure Article where
  h3 : Option H3Tag
  deriving Repr, DecidableEq

/-- Fixed base of detail-page URLs (scraper.py line 139-141). -/
def catalogue_base : String := "http://books.toscrape.com/catalogue/"

/-- The detail-page URL an article yields, if any (scraper.py lines
134-141): needs an `<h3>`, an `<a>` inside it, and a truthy `href`
(present and non-empty, matching `if a_tag and a_tag.get("href")`). -/
def article_url (art : Article) : Option String :=
  match art.h3 with
  | none => none
  | some h =>
    match h.a with
    | none => none
    | some an =>
      match an.href with
      | none => none
      | some href => if href == "" then none else some (catalogue_base ++ href)

/-- The ordered detail-page references a listing document yields
(spec name `extract_refs`; inlined at scraper.py lines 127-141). -/
def extract_refs (arts : List Article) : List String :=
  arts.filterMap article_url

/-- Outcome of fetching one listing page, with the classification the
loop makes: a parsed document (2xx), status 404, or a
`requests.RequestException` (connection failure, timeout, or the
`raise_for_status` of a non-2xx/404 status). -/
inductive ListingFetch
  | ok (articles : List Article)
  | notFound
  | transportError
  deriving Repr

/-- The remote catalog, as deterministic response functions: the result
of fetching listing page `p`, and of fetching a detail URL (`Except`
error is a raised exception inside `get_book_data`). -/
structure Source where
  listing : Nat → ListingFetch
  detail : String → Except Unit DetailDoc

/-- `get_book_data` as called by the crawl loop: fetch the detail
document (may raise) and run the total extraction phase on it. -/
def get_book_data (src : Source) (book_url : String) : Except Unit Book :=
  match src.detail book_url with
  | Except.ok doc => Except.ok (extract_book doc)
  | Except.error e => Except.error e

/-- The inner per-ref loop (scraper.py lines 143-150): in order, call
`get_book_data`; on success append the book; on any exception record
the offending URL (the `Error scraping {book_url}` print) and continue.
Returns (books appended, error URLs recorded), each in encounter
order. -/
def process_refs (src : Source) : List String → List Book × List String
  | [] => ([], [])
  | url :: rest =>
    match get_book_data src url with
    | Except.ok bk =>
      let r := process_refs src rest
      (bk :: r.1, r.2)
    | Except.error _ =>
      let r := process_refs src rest
      (r.1, url :: r.2)

/-- Everything one run of the crawl loop produces: the returned
`books_list`, the ghost log of per-item error URLs, and whether the
loop ended through the fatal `except requests.RequestException`
branch (line 154) rather than a normal break. -/
structure CrawlTrace where
  books : List Book
  item_errors : List String
  fatal : Bool
  deriving Repr, DecidableEq

/-- The loop guard `if max_pages and page_num > max_pages` (line 112):
Python truthiness makes it false when `max_pages` is `None` or `0`. -/
def bound_hit : Option Nat → Nat → Bool
  | none, _ => false
  | some m, p => if m = 0 then false else decide (m < p)

/-- The `while True` crawl loop (scraper.py lines 111-156), fuel
indexed; `none` means the loop did not exit within `fuel` iterations.
Each iteration: bound check; fetch listing page `p` (404 breaks
normally, transport error breaks fatally); empty article list breaks
normally; otherwise process the refs of the page and continue at
`p + 1`. -/
def crawlLoop (src : Source) (maxPages : Option Nat) : Nat → Nat → Option CrawlTrace
  | 0, _ => none
  | fuel + 1, p =>
    if bound_hit maxPages p then some ⟨[], [], false⟩
    else
      match src.listing p with
      | ListingFetch.notFound => some ⟨[], [], false⟩
      | ListingFetch.transportError => some ⟨[], [], true⟩
      | ListingFetch.ok arts =>
        if arts.isEmpty then some ⟨[], [], false⟩
        else
          let pr := process_refs src (extract_refs arts)
          match crawlLoop src maxPages fuel (p + 1) with
          | none => none
          | some t => some ⟨pr.1 ++ t.books, pr.2 ++ t.item_errors, t.fatal⟩

/-- The caller-visible value of `scrape_books`: only `books_list` is
returned (line 163); the error prints are stdout, not return data. -/
def scrape_books (src : Source) (maxPages : Option Nat) (fuel : Nat) : Option (List Book) :=
  (crawlLoop src maxPages fuel 1).map CrawlTrace.books

/-! Concrete fixtures used as test inputs for the theorems below. -/

/-- A fully populated detail document. -/
def doc_basic : DetailDoc where
  h1 := some "A Book"
  price_color := some "£10.00"
  star_rating := some ["star-rating", "Three"]
  instock_availability := some "In stock"
  product_description_sibling := some (some "desc")
  table_rows := some [⟨some "UPC", some "abc123"⟩]

/-- A detail document whose page has no `<h1>` heading. -/
def doc_no_title : DetailDoc := { doc_basic with h1 := none }

/-- A detail document whose star-rating indicator carries only the one
token `star-rating`. -/
def doc_one_token : DetailDoc := { doc_basic with star_rating := some ["star-rating"] }

/-- An item container with complete inner markup pointing at `href`. -/
def art_ok (href : String) : Article := ⟨some ⟨some ⟨some href⟩⟩⟩

/-- An item container with no `<h3>` child. -/
def art_no_h3 : Article := ⟨none⟩

/-- A catalog with one non-empty listing page followed by a 404;
every detail fetch succeeds with `doc_basic`. -/
def src_end : Source where
  listing := fun p => if p = 1 then ListingFetch.ok [art_ok "b1.html"] else ListingFetch.notFound
  detail := fun _ => Except.ok doc_basic

/-- Like `src_end`, but fetching listing page 2 raises a transport
error instead of returning 404. -/
def src_fatal : Source where
  listing := fun p => if p = 1 then ListingFetch.ok [art_ok "b1.html"] else ListingFetch.transportError
  detail := fun _ => Except.ok doc_basic

/-- A catalog with exactly two non-empty listing pages followed by a
404; every detail fetch succeeds with `doc_basic`. -/
def src_two_pages : Source where
  listing := fun p =>
    if p = 1 then ListingFetch.ok [art_ok "b1.html"]
    else if p = 2 then ListingFetch.ok [art_ok "b2.html"]
    else ListingFetch.notFound
  detail := fun _ => Except.ok doc_basic

/-- A one-page catalog whose only detail page has no `<h1>`: the
extracted book has a null title. -/
def src_null_title : Source where
  listing := fun p => if p = 1 then ListingFetch.ok [art_ok "b1.html"] else ListingFetch.notFound
  detail := fun _ => Except.ok doc_no_title

/-- A source whose detail fetch raises exactly for the URL `bad`. -/
def src_item_fail : Source where
  listing := fun p => if p = 1 then ListingFetch.ok [art_ok "b1.html"] else ListingFetch.notFound
  detail := fun u => if u = "bad" then Except.error () else Except.ok doc_basic

/-! Helper lemmas shared by the claim theorems. -/

/-- The per-ref loop distributes over list append: books and recorded
error URLs are each the concatenation of the two halves. -/
theorem process_refs_append (src : Source) (l1 l2 : List String) :
    process_refs src (l1 ++ l2) =
      ((process_refs src l1).1 ++ (process_refs src l2).1,
       (process_refs src l1).2 ++ (process_refs src l2).2) := by
  induction l1 with
  | nil => simp [process_refs]
  | cons u rest ih =>
    simp only [List.cons_append, process_refs]
    cases get_book_data src u <;> simp [ih]

/-- The Python loop guard treats a zero bound as no bound at all. -/
theorem bound_hit_zero (p : Nat) : bound_hit (some 0) p = bound_hit none p := by
  simp [bound_hit]

/-- Rows missing a header or data cell leave the accumulator of the
`product_info` fold unchanged, whatever it currently holds. -/
theorem product_info_foldl_filter (rows : List Row) (acc : List (String × String)) :
    rows.foldl product_info_step acc
      = (rows.filter fun r => r.th.isSome && r.td.isSome).foldl product_info_step acc := by
  induction rows generalizing acc with
  | nil => rfl
  | cons r rest ih =>
    cases hth : r.th <;> cases htd : r.td <;>
      simp [List.filter_cons, product_info_step, hth, htd, ih]

/-- Looking up a key in the overwrite branch of `dict_insert` finds
the fresh value. -/
theorem lookup_map_overwrite (m : List (String × String)) (k v : String)
    (h : m.any (fun p => p.1 == k) = true) :
    List.lookup k (m.map fun p => if p.1 == k then (k, v) else p) = some v := by
  induction m with
  | nil => simp at h
  | cons p rest ih =>
    simp only [List.any_cons, Bool.or_eq_true] at h
    cases hk : p.1 == k with
    | true =>
      rw [List.map_cons, if_pos hk]
      simp [List.lookup]
    | false =>
      have hk2 : (k == p.1) = false := by
        simp only [beq_eq_false_iff_ne] at hk ⊢
        exact fun e => hk e.symm
      have hrest : rest.any (fun p => p.1 == k) = true := by
        rcases h with h | h
        · rw [hk] at h; exact absurd h (by simp)
        · exact h
      rw [List.map_cons, if_neg (by simp [hk])]
      simp only [List.lookup, hk2]
      exact ih hrest

/-- Looking up a key absent from `m` in `m ++ [(k, v)]` finds `v`. -/
theorem lookup_append_missing (m : List (String × String)) (k v : String)
    (h : m.any (fun p => p.1 == k) = false) :
    List.lookup k (m ++ [(k, v)]) = some v := by
  induction m with
  | nil => simp [List.lookup]
  | cons p rest ih =>
    simp only [List.any_cons, Bool.or_eq_false_iff] at h
    have hk2 : (k == p.1) = false := by
      have := h.1
      simp only [beq_eq_false_iff_ne] at this ⊢
      exact fun e => this e.symm
    simp [List.cons_append, List.lookup, hk2, ih h.2]

/-- Python dict assignment then lookup on the same key yields the
assigned value, whether or not the key was already present. -/
theorem lookup_dict_insert (m : List (String × String)) (k v : String) :
    List.lookup k (dict_insert m k v) = some v := by
  cases hany : m.any (fun p => p.1 == k) with
  | true => simpa [dict_insert, hany] using lookup_map_overwrite m k v hany
  | false => simpa [dict_insert, hany] using lookup_append_missing m k v hany

/-- The first five entries of the returned dict are plain text or
null, never the nested mapping. -/
theorem optVal_isTextOrNull (o : Option String) : (optVal o).isTextOrNull = true := by
  cases o <;> rfl

/-! Claim theorems. -/

/-- C2, counterexample: on a one-page catalog, `scrape_books` with
`max_pages = 0` still fetches and collects page 1, so the result is
not the empty list the claim demands. -/
theorem C2_counterexample :
    scrape_books src_end (some 0) 2 = some [extract_book doc_basic] ∧
    some [extract_book doc_basic] ≠ some ([] : List Book) :=
  ⟨rfl, by decide⟩

/-- C2, amended: because `if max_pages and ...` is false for the falsy
value `0`, a crawl bounded by `max_pages = 0` behaves exactly like an
unbounded crawl (`max_pages = None`), from any page and any fuel. -/
theorem C2_zero_bound_unbounded (src : Source) (fuel p : Nat) :
    crawlLoop src (some 0) fuel p = crawlLoop src none fuel p := by
  induction fuel generalizing p with
  | zero => rfl
  | succ n ih =>
    simp only [crawlLoop, bound_hit_zero]
    cases src.listing p with
    | ok arts => cases h : arts.isEmpty <;> simp [h, ih]
    | notFound => rfl
    | transportError => rfl

/-- C3, counterexample: a listing document with two item containers,
one of them lacking its `<h3>`, yields only one detail-page reference,
not two. -/
theorem C3_counterexample :
    ([art_ok "b1.html", art_no_h3] : List Article).length = 2 ∧
    (extract_refs [art_ok "b1.html", art_no_h3]).length ≠ 2 :=
  ⟨rfl, by decide⟩

/-- C3, amended: the number of detail-page references extracted equals
the number of item containers whose inner markup is complete (an `<h3>`
holding an anchor with a truthy `href`); containers with incomplete
markup are omitted, so the count never exceeds the container count. -/
theorem C3_refs_per_complete_container (arts : List Article) :
    (extract_refs arts).length = arts.countP (fun a => (article_url a).isSome) ∧
    (extract_refs arts).length ≤ arts.length := by
  refine ⟨?_, List.length_filterMap_le article_url arts⟩
  induction arts with
  | nil => rfl
  | cons a rest ih =>
    have ih2 : (List.filterMap article_url rest).length
        = List.countP (fun a => (article_url a).isSome) rest := ih
    cases h : article_url a <;>
      simp [extract_refs, List.filterMap_cons, h, List.countP_cons, ih2]

/-- C1: a transport error while fetching a listing page does terminate
the crawl and the partial result is returned, but the caller receives
only the bare `books_list` — identical to the value returned when the
same catalog ends normally with a 404.  The fatal stop is only printed
(the ghost `fatal` flag), so no distinguishable indication reaches the
caller, although the docstring promises a raised
`requests.RequestException`. -/
theorem C1_fatal_stop_not_surfaced :
    scrape_books src_fatal none 3 = some [extract_book doc_basic] ∧
    scrape_books src_end none 3 = some [extract_book doc_basic] ∧
    scrape_books src_fatal none 3 = scrape_books src_end none 3 ∧
    (crawlLoop src_fatal none 3 1).map CrawlTrace.fatal = some true ∧
    (crawlLoop src_end none 3 1).map CrawlTrace.fatal = some false :=
  ⟨rfl, rfl, rfl, rfl, rfl⟩

/-- C4: when `get_book_data` raises for one reference, that reference
contributes no book, its URL is recorded in the error log, and every
reference before and after it is processed exactly as it would be on
its own — a single bad item never aborts the page. -/
theorem C4_item_failure_recorded (src : Source) (pre post : List String) (url : String)
    (h : get_book_data src url = Except.error ()) :
    process_refs src (pre ++ url :: post) =
      ((process_refs src pre).1 ++ (process_refs src post).1,
       (process_refs src pre).2 ++ url :: (process_refs src post).2) := by
  rw [process_refs_append]
  simp [process_refs, h]

/-- C4, witness: on a source whose detail fetch raises exactly for the
URL `bad`, the failing middle reference is recorded and skipped while
its neighbours are processed. -/
theorem C4_witness :
    process_refs src_item_fail (["good1"] ++ "bad" :: ["good2"]) =
      ((process_refs src_item_fail ["good1"]).1 ++ (process_refs src_item_fail ["good2"]).1,
       (process_refs src_item_fail ["good1"]).2
         ++ "bad" :: (process_refs src_item_fail ["good2"]).2) :=
  C4_item_failure_recorded src_item_fail ["good1"] ["good2"] "bad" rfl

/-- C5: the extracted rating is entry 1 of the star-rating class token
list — the second token when at least two are present, absent when the
indicator is missing or carries fewer than two tokens; in particular
`["star-rating", "Three"]` yields `Three` and `["star-rating"]` alone
yields no rating. -/
theorem C5_rating_second_token :
    (∀ (d : DetailDoc) (cls : List String), d.star_rating = some cls →
        (extract_book d).rating = cls[1]?) ∧
    (∀ (d : DetailDoc) (cls : List String), d.star_rating = some cls → cls.length ≤ 1 →
        (extract_book d).rating = none) ∧
    (∀ d : DetailDoc, d.star_rating = none → (extract_book d).rating = none) ∧
    (extract_book doc_basic).rating = some "Three" ∧
    (extract_book doc_one_token).rating = none := by
  refine ⟨?_, ?_, ?_, rfl, rfl⟩
  · intro d cls h
    simp [extract_book, h]
  · intro d cls h hlen
    simp [extract_book, h, List.getElem?_eq_none hlen]
  · intro d h
    simp [extract_book, h]

/-- C5, witness: the general token rule applied to the concrete
document whose indicator carries `["star-rating", "Three"]`. -/
theorem C5_witness :
    (extract_book doc_basic).rating = (["star-rating", "Three"] : List String)[1]? :=
  C5_rating_second_token.1 doc_basic ["star-rating", "Three"] rfl

/-- C8, counterexample: on a catalog whose only detail page has no
heading, the crawl appends the null-titled book to the result and
records no per-item failure — the item is not excluded. -/
theorem C8_counterexample :
    scrape_books src_null_title none 2 = some [extract_book doc_no_title] ∧
    (extract_book doc_no_title).title = none ∧
    (crawlLoop src_null_title none 2 1).map CrawlTrace.item_errors = some [] :=
  ⟨rfl, rfl, rfl⟩

/-- C8, amended: a detail page whose fetch and extraction succeed but
whose title is null is appended to the CrawlResult like any other
success (with `title = none`); it is not excluded, no failure is
recorded for it, and the surrounding references are processed
unchanged. -/
theorem C8_null_title_included (src : Source) (pre post : List String) (url : String)
    (doc : DetailDoc) (hfetch : src.detail url = Except.ok doc) (htitle : doc.h1 = none) :
    process_refs src (pre ++ url :: post) =
      ((process_refs src pre).1 ++ extract_book doc :: (process_refs src post).1,
       (process_refs src pre).2 ++ (process_refs src post).2) ∧
    (extract_book doc).title = none := by
  constructor
  · rw [process_refs_append]
    simp [process_refs, get_book_data, hfetch]
  · simp [extract_book, htitle]

/-- C8, witness: the null-title inclusion rule applied to the concrete
one-page catalog whose detail document lacks its heading. -/
theorem C8_witness :
    (process_refs src_null_title ([] ++ "u" :: []) =
      ((process_refs src_null_title []).1
         ++ extract_book doc_no_title :: (process_refs src_null_title []).1,
       (process_refs src_null_title []).2 ++ (process_refs src_null_title []).2) ∧
    (extract_book doc_no_title).title = none) :=
  C8_null_title_included src_null_title [] [] "u" doc_no_title rfl rfl

/-- C6: against any catalog with exactly two non-empty listing pages
followed by a 404 on page 3, the unbounded crawl exits within three
iterations (fuel 3 already yields a terminated run, so the loop does
not run forever) and returns exactly the items of page 1 followed by
the items of page 2, with a normal, non-fatal stop. -/
theorem C6_two_pages_then_404 (src : Source) (d1 d2 : List Article)
    (h1 : src.listing 1 = ListingFetch.ok d1) (hne1 : d1 ≠ [])
    (h2 : src.listing 2 = ListingFetch.ok d2) (hne2 : d2 ≠ [])
    (h3 : src.listing 3 = ListingFetch.notFound) :
    crawlLoop src none 3 1 =
      some ⟨(process_refs src (extract_refs d1)).1 ++ (process_refs src (extract_refs d2)).1,
            (process_refs src (extract_refs d1)).2 ++ (process_refs src (extract_refs d2)).2,
            false⟩ := by
  have e1 : d1.isEmpty = false := by
    cases d1 with
    | nil => exact absurd rfl hne1
    | cons a l => rfl
  have e2 : d2.isEmpty = false := by
    cases d2 with
    | nil => exact absurd rfl hne2
    | cons a l => rfl
  simp [crawlLoop, bound_hit, h1, h2, h3, e1, e2]

/-- C6, witness: the two-page termination law applied to the concrete
two-page catalog `src_two_pages`. -/
theorem C6_witness :
    crawlLoop src_two_pages none 3 1 =
      some ⟨(process_refs src_two_pages (extract_refs [art_ok "b1.html"])).1
              ++ (process_refs src_two_pages (extract_refs [art_ok "b2.html"])).1,
            (process_refs src_two_pages (extract_refs [art_ok "b1.html"])).2
              ++ (process_refs src_two_pages (extract_refs [art_ok "b2.html"])).2,
            false⟩ :=
  C6_two_pages_then_404 src_two_pages [art_ok "b1.html"] [art_ok "b2.html"]
    rfl (by decide) rfl (by decide) rfl

/-- C7: against one unchanged source whose first listing page carries
items, a crawl bounded to two pages returns at least as many books as
a crawl bounded to one page: both process page 1 identically, and the
second crawl only ever appends page 2 results after page 1 results. -/
theorem C7_bound_monotone (src : Source) (d : List Article) (b1 b2 : List Book)
    (hok : src.listing 1 = ListingFetch.ok d) (hne : d ≠ [])
    (r1 : scrape_books src (some 1) 2 = some b1)
    (r2 : scrape_books src (some 2) 3 = some b2) :
    b1.length ≤ b2.length := by
  have e : d.isEmpty = false := by
    cases d with
    | nil => exact absurd rfl hne
    | cons a l => rfl
  have c1 : crawlLoop src (some 1) 2 1
      = some ⟨(process_refs src (extract_refs d)).1,
              (process_refs src (extract_refs d)).2, false⟩ := by
    simp [crawlLoop, bound_hit, hok, e]
  rw [scrape_books, c1] at r1
  simp only [Option.map_some', Option.some.injEq] at r1
  cases hl2 : src.listing 2 with
  | ok d2 =>
    cases he2 : d2.isEmpty with
    | true =>
      have c2 : crawlLoop src (some 2) 3 1
          = some ⟨(process_refs src (extract_refs d)).1,
                  (process_refs src (extract_refs d)).2, false⟩ := by
        simp [crawlLoop, bound_hit, hok, e, hl2, he2]
      rw [scrape_books, c2] at r2
      simp only [Option.map_some', Option.some.injEq] at r2
      rw [← r1, ← r2]
    | false =>
      have c2 : crawlLoop src (some 2) 3 1
          = some ⟨(process_refs src (extract_refs d)).1
                    ++ (process_refs src (extract_refs d2)).1,
                  (process_refs src (extract_refs d)).2
                    ++ (process_refs src (extract_refs d2)).2, false⟩ := by
        simp [crawlLoop, bound_hit, hok, e, hl2, he2]
      rw [scrape_books, c2] at r2
      simp only [Option.map_some', Option.some.injEq] at r2
      rw [← r1, ← r2]
      simp
  | notFound =>
    have c2 : crawlLoop src (some 2) 3 1
        = some ⟨(process_refs src (extract_refs d)).1,
                (process_refs src (extract_refs d)).2, false⟩ := by
      simp [crawlLoop, bound_hit, hok, e, hl2]
    rw [scrape_books, c2] at r2
    simp only [Option.map_some', Option.some.injEq] at r2
    rw [← r1, ← r2]
  | transportError =>
    have c2 : crawlLoop src (some 2) 3 1
        = some ⟨(process_refs src (extract_refs d)).1,
                (process_refs src (extract_refs d)).2, true⟩ := by
      simp [crawlLoop, bound_hit, hok, e, hl2]
    rw [scrape_books, c2] at r2
    simp only [Option.map_some', Option.some.injEq] at r2
    rw [← r1, ← r2]

/-- C7, witness: the monotonicity law applied to the concrete one-page
catalog `src_end`, where both bounded crawls return the same single
book. -/
theorem C7_witness :
    ([extract_book doc_basic] : List Book).length
      ≤ ([extract_book doc_basic] : List Book).length :=
  C7_bound_monotone src_end [art_ok "b1.html"] [extract_book doc_basic]
    [extract_book doc_basic] rfl (by decide) rfl rfl

/-- C9: `product_info` is the row-by-row scan of the characteristics
table: rows missing a header or data cell are skipped without effect,
a row with both cells contributes its stripped key/value pair with a
later duplicate key overwriting the earlier value, and the two-row
scenario with one header-only row yields exactly the one pair. -/
theorem C9_product_info_table :
    (∀ (d : DetailDoc) (rows : List Row), d.table_rows = some rows →
        (extract_book d).product_info = product_info_of_rows rows) ∧
    (∀ rows : List Row,
        product_info_of_rows rows
          = product_info_of_rows (rows.filter fun r => r.th.isSome && r.td.isSome)) ∧
    (∀ (rows : List Row) (k v : String),
        List.lookup (strip k)
            (product_info_of_rows (rows ++ [⟨some k, some v⟩])) = some (strip v)) ∧
    product_info_of_rows [⟨some "UPC", some "abc123"⟩, ⟨some "Tax", none⟩]
      = [("UPC", "abc123")] := by
  refine ⟨?_, ?_, ?_, rfl⟩
  · intro d rows h
    simp [extract_book, h]
  · intro rows
    exact product_info_foldl_filter rows []
  · intro rows k v
    rw [product_info_of_rows, List.foldl_append]
    exact lookup_dict_insert (rows.foldl product_info_step []) (strip k) (strip v)

/-- C9, witness: the table rule applied to the concrete document whose
table holds the single row `("UPC", "abc123")`. -/
theorem C9_witness :
    (extract_book doc_basic).product_info
      = product_info_of_rows [⟨some "UPC", some "abc123"⟩] :=
  C9_product_info_table.1 doc_basic [⟨some "UPC", some "abc123"⟩] rfl

/-- C10: for every detail document whatsoever, the extraction phase is
total (it is a function, so no input can make it raise) and the
returned dict has exactly the six keys in assignment order, the first
five values each extracted text or the null marker, and
`product_info` always the nested (possibly empty) mapping. -/
theorem C10_record_shape (d : DetailDoc) :
    (book_dict (extract_book d)).map Prod.fst
        = ["title", "price", "rating", "availability", "description", "product_info"] ∧
    ((book_dict (extract_book d)).take 5).all (fun p => p.2.isTextOrNull) = true ∧
    ("product_info", FieldVal.dict (extract_book d).product_info)
      ∈ book_dict (extract_book d) := by
  refine ⟨rfl, ?_, ?_⟩
  · simp [book_dict, optVal_isTextOrNull]
  · simp [book_dict]

end Scraper
